import Mathlib

/-!
Shallow embedding of `sentry/rules.py`: the rule-dispatch core of the sentry
DNS proxy.  Each Python rule class becomes a Lean structure; each `dispatch`
method becomes a pure function.  DNS messages are modelled structurally
(`to_wire` is injective on the fields we model, so `Responded` carries the
structured message).  Raising an exception is modelled with `Except`: an
`IndexError` from `message.question[0]` on an empty question section, and
`errors.NetworkError` from a failed resolver race.  The concurrent race in
`ResolveRule.dispatch` / `CNameRule.dispatch` is modelled by an environment
schedule: a function giving the result each submitted task would complete
with, together with the index of the first task to complete
(`futures.wait(fs, return_when=FIRST_COMPLETED).done.pop()`).
-/

namespace Sentry

/-- `DEFAULT_TTL = 300` from rules.py. -/
def DEFAULT_TTL : Nat := 300

/-- `DEFAULT_TIMEOUT = 1.0` from rules.py (seconds, modelled as a rational). -/
def DEFAULT_TIMEOUT : ℚ := 1

namespace rdatatype

/-- dnspython `dns.rdatatype.A`. -/
def A : Nat := 1

/-- dnspython `dns.rdatatype.CNAME`. -/
def CNAME : Nat := 5

/-- dnspython `dns.rdatatype.MX`. -/
def MX : Nat := 15

/-- dnspython `dns.rdatatype.TXT`. -/
def TXT : Nat := 16

/-- dnspython `dns.rdatatype.AAAA`. -/
def AAAA : Nat := 28

/-- dnspython `dns.rdatatype.from_text`, restricted to the mnemonics this
development needs; unknown mnemonics raise (`none`). -/
def fromText (s : String) : Option Nat :=
  match s with
  | "A" => some A
  | "CNAME" => some CNAME
  | "MX" => some MX
  | "TXT" => some TXT
  | "AAAA" => some AAAA
  | "ANY" => some 255
  | _ => none

end rdatatype

namespace rdataclass

/-- dnspython `dns.rdataclass.IN` (Internet). -/
def IN : Nat := 1

/-- dnspython `dns.rdataclass.CH`. -/
def CH : Nat := 3

/-- dnspython `dns.rdataclass.ANY`. -/
def ANY : Nat := 255

/-- dnspython `dns.rdataclass.from_text`, restricted to the mnemonics this
development needs; unknown mnemonics raise (`none`). -/
def fromText (s : String) : Option Nat :=
  match s with
  | "IN" => some IN
  | "CH" => some CH
  | "ANY" => some ANY
  | _ => none

end rdataclass

/-- One entry of a DNS message's question section: a name (absolute names end
with a trailing dot), a record type and a record class. -/
structure Question where
  name : String
  rdtype : Nat
  rdclass : Nat
  deriving DecidableEq

/-- An answer-section record set, as produced by `dns.rrset.from_text(name,
ttl, rdclass, rdtype, text)`: the single rdata is kept as its text form
(a CNAME target or an address). -/
structure RRset where
  name : String
  ttl : Nat
  rdclass : Nat
  rdtype : Nat
  rdata : String
  deriving DecidableEq

/-- A decoded DNS message: transaction id, question section, answer section
(the fields the rules read or write). -/
structure DnsMessage where
  id : Nat
  question : List Question
  answer : List RRset
  deriving DecidableEq

/-- `dns.message.make_response(query)`: a response carrying the query's
transaction id and question section, with no answer records. -/
def makeResponse (query : DnsMessage) : DnsMessage :=
  { id := query.id, question := query.question, answer := [] }

/-- `dns.rrset.from_text(name, ttl, rdclass, rdtype, text)`. -/
def rrsetFromText (name : String) (ttl rdclass rdtype : Nat) (text : String) : RRset :=
  { name := name, ttl := ttl, rdclass := rdclass, rdtype := rdtype, rdata := text }

/-- Whether the last character of a string is a dot: `s.endswith('.')` in
Python, modelled over the character list so that the kernel can evaluate it. -/
def endsWithDot (s : String) : Bool :=
  s.data.getLast? = some '.'

/-- Destination normalization shared by `RedirectRule.__init__` and
`CNameRule.__init__`: append a trailing dot when the destination lacks one. -/
def normalizeDst (destination : String) : String :=
  if endsWithDot destination then destination else destination ++ "."

/-- `dns.name.from_text(text)`: the resulting absolute name printed in
trailing-dot form (from_text resolves a relative name against the root
origin, making it absolute). -/
def dnsNameFromText (text : String) : String :=
  if endsWithDot text then text else text ++ "."

/-- Split a string at commas: `resolvers.split(',')`, modelled structurally. -/
def splitCommaAux : List Char → List Char → List (List Char)
  | [], acc => [acc.reverse]
  | c :: rest, acc =>
    if c = ',' then acc.reverse :: splitCommaAux rest [] else splitCommaAux rest (c :: acc)

/-- `s.split(',')` from Python. -/
def splitOnComma (s : String) : List String :=
  (splitCommaAux s.data []).map (fun l => String.mk l)

/-- Whitespace test for `str.strip()`. -/
def isSpaceChar (c : Char) : Bool :=
  c = ' ' || c = '\t' || c = '\n' || c = '\r'

/-- `s.strip()` from Python: drop leading and trailing whitespace. -/
def strip (s : String) : String :=
  String.mk (((s.data.dropWhile isSpaceChar).reverse.dropWhile isSpaceChar).reverse)

/-- The outcome a dispatch call hands back to the rule engine: a synthesized
or forwarded response (`response.to_wire()` in the source, carried here as
the structured message), or `None` (no action, evaluation continues). -/
inductive Outcome where
  | responded : DnsMessage → Outcome
  | noAction : Outcome
  deriving DecidableEq

/-- Exceptions a dispatch call can raise: `IndexError` from
`message.question[0]` on an empty question section, and
`errors.NetworkError` carrying the original query and the attempted
resolvers when a race fails. -/
inductive DispatchError where
  | indexError : DispatchError
  | networkError : DnsMessage → List String → DispatchError
  deriving DecidableEq

/-- The optional diagnostic mapping passed through `extras['context']`. -/
abbrev Context := List (String × String)

/-- A log line emitted during dispatch. -/
abbrev LogEntry := String

/-- Result type of a modelled dispatch call: either a raised exception or an
outcome together with the warn/info log lines written on the way. -/
abbrev DispatchResult := Except DispatchError (Outcome × List LogEntry)

/-- Rendering of the context mapping inside a log line (`'%s' % context`). -/
def ctxToString (c : Context) : String :=
  String.intercalate ", " (c.map (fun p => p.1 ++ ": " ++ p.2))

/-- The settings object; the rules consult only `resolution_timeout`. -/
structure Settings where
  resolution_timeout : Option ℚ := none
  deriving DecidableEq

/-- `settings.get('resolution_timeout', DEFAULT_TIMEOUT)`. -/
def Settings.resolutionTimeout (s : Settings) : ℚ :=
  s.resolution_timeout.getD DEFAULT_TIMEOUT

/-- Completion state of one resolution task submitted to the pool: finished
with a value, or finished by raising (a timeout or network exception,
carried as its message text). -/
inductive TaskResult (α : Type) where
  | ok : α → TaskResult α
  | exn : String → TaskResult α
  deriving DecidableEq

/-- `RedirectRule`: redirects a query using a CNAME. -/
structure RedirectRule where
  domain : String
  dst : String
  deriving DecidableEq

/-- `RedirectRule.__init__`: store the destination, appending a trailing dot
when it lacks one. -/
def RedirectRule.init (domain destination : String) : RedirectRule :=
  { domain := domain, dst := normalizeDst destination }

/-- `RedirectRule.dispatch`: make a response to the query and append one
CNAME rrset `(question[0].name, DEFAULT_TTL, IN, CNAME, dst)`; return its
wire form.  `message.question[0]` raises on an empty question section. -/
def RedirectRule.dispatch (r : RedirectRule) (message : DnsMessage) (_context : Context) :
    DispatchResult :=
  match message.question with
  | [] => .error .indexError
  | q :: _ =>
    let response := makeResponse message
    let response := { response with answer := response.answer ++
        [rrsetFromText q.name DEFAULT_TTL rdataclass.IN rdatatype.CNAME r.dst] }
    .ok (.responded response, [])

/-- `BlockRule`: blocks the request by returning an empty response. -/
structure BlockRule where
  domain : String
  deriving DecidableEq

/-- `BlockRule.dispatch`: warn-log the block (the log line reads
`message.question[0].name`, raising on an empty question section), then
return the wire form of an empty response to the query. -/
def BlockRule.dispatch (b : BlockRule) (message : DnsMessage) (context : Context) :
    DispatchResult :=
  match message.question with
  | [] => .error .indexError
  | q :: _ =>
    let logLine := "blocking query: " ++ q.name ++ " matched by rule: " ++ b.domain ++
      " with context: " ++ ctxToString context
    .ok (.responded (makeResponse message), [logLine])

/-- `ConditionalBlockRule`: blocks the request based on simple if logic.
`rdtype`/`rdclass` are the optional numeric filters produced by
`__init__` from the parsed `type`/`class` arguments. -/
structure ConditionalBlockRule where
  domain : String
  rdtype : Option Nat
  rdclass : Option Nat
  deriving DecidableEq

/-- `ConditionalBlockRule.__init__`: translate the optional `type` and
`class` textual arguments through `dns.rdatatype.from_text` /
`dns.rdataclass.from_text` (which raise on unknown mnemonics). -/
def ConditionalBlockRule.init (domain : String) (ty cl : Option String) :
    Option ConditionalBlockRule := do
  let rdt ← match ty with
    | none => some none
    | some t => (rdatatype.fromText t).map some
  let rdc ← match cl with
    | none => some none
    | some c => (rdataclass.fromText c).map some
  some { domain := domain, rdtype := rdt, rdclass := rdc }

/-- `self.rdtype is not None and q.rdtype != self.rdtype` (and likewise for
the class filter): a configured filter that the query does not match. -/
def filterMismatch (f : Option Nat) (v : Nat) : Bool :=
  match f with
  | none => false
  | some x => v != x

/-- `ConditionalBlockRule.dispatch`: read `q = message.question[0]` (raising
on an empty question section); return `None` when a configured type or
class filter does not match; otherwise warn-log and return the wire form
of an empty response to the query. -/
def ConditionalBlockRule.dispatch (r : ConditionalBlockRule) (message : DnsMessage)
    (context : Context) : DispatchResult :=
  match message.question with
  | [] => .error .indexError
  | q :: _ =>
    if filterMismatch r.rdtype q.rdtype then .ok (.noAction, [])
    else if filterMismatch r.rdclass q.rdclass then .ok (.noAction, [])
    else
      let logLine := "conditionally blocking query: " ++ q.name ++ " matched by rule: " ++
        r.domain ++ " with context: " ++ ctxToString context
      .ok (.responded (makeResponse message), [logLine])

/-- `LoggingRule`: logs the query and nothing else. -/
structure LoggingRule where
  domain : String
  deriving DecidableEq

/-- `LoggingRule.dispatch`: info-log the query (reading
`message.question[0].name`, raising on an empty question section) and
return `None`. -/
def LoggingRule.dispatch (r : LoggingRule) (message : DnsMessage) (context : Context) :
    DispatchResult :=
  match message.question with
  | [] => .error .indexError
  | q :: _ =>
    .ok (.noAction, ["logging query: " ++ q.name ++ " matched by rule: " ++ r.domain ++
      " with context: " ++ ctxToString context])

/-- `ResolveRule`: resolves a query using specific DNS servers.  `resolvers`
is the comma-split, stripped list from `__init__`; the worker pool (one
slot per resolver) is implicit in the dispatch model. -/
structure ResolveRule where
  domain : String
  resolvers : List String
  timeout : ℚ
  deriving DecidableEq

/-- `ResolveRule.__init__`: split the resolver list on commas and strip each
entry; read the per-query timeout from the settings. -/
def ResolveRule.init (settings : Settings) (domain resolvers : String) : ResolveRule :=
  { domain := domain
    resolvers := (splitOnComma resolvers).map strip
    timeout := settings.resolutionTimeout }

/-- `ResolveRule.dispatch`: submit one `_resolver(message, resolver)` task
per resolver (task `i` forwards `message` to resolver `i` over UDP and
returns the upstream response's wire form), wait for the first task to
complete and pop it.  `results i` is the completion the environment
schedule assigns to task `i`; `winner` is the index of the task that
completes first.  If the popped task finished without an exception its
result is returned; otherwise `NetworkError` is raised at once. -/
def ResolveRule.dispatch (r : ResolveRule) (message : DnsMessage) (_context : Context)
    (results : Fin r.resolvers.length → DnsMessage → TaskResult DnsMessage)
    (winner : Fin r.resolvers.length) : DispatchResult :=
  match results winner message with
  | .ok wire => .ok (.responded wire, [])
  | .exn _ => .error (.networkError message r.resolvers)

/-- One rdata of the answer returned by an upstream `resolver.query`: its
class, its type, and its address text. -/
structure Rdata where
  rdclass : Nat
  rdtype : Nat
  address : String
  deriving DecidableEq

/-- `CNameRule`: redirects a query using a CNAME and, unlike `redirect`, also
supplies A/AAAA records for the destination.  `resolvers` holds the
nameserver address of each per-resolver `dns.resolver.Resolver`. -/
structure CNameRule where
  domain : String
  dst : String
  resolvers : List String
  timeout : ℚ
  deriving DecidableEq

/-- `CNameRule.__init__`: store the destination with a trailing dot appended
when it lacks one; build one resolver per comma-split, stripped
nameserver; read the per-query timeout from the settings. -/
def CNameRule.init (settings : Settings) (domain destination resolvers : String) : CNameRule :=
  { domain := domain
    dst := normalizeDst destination
    resolvers := (splitOnComma resolvers).map strip
    timeout := settings.resolutionTimeout }

/-- The loop body of `CNameRule.dispatch`: for an upstream rdata of class IN
and type A or AAAA, append an rrset `(dst, DEFAULT_TTL, IN, a.rdtype,
a.address)` to the response; other rdatas leave it unchanged. -/
def cnameStep (dst : String) (resp : DnsMessage) (a : Rdata) : DnsMessage :=
  if a.rdclass == rdataclass.IN && (a.rdtype == rdatatype.A || a.rdtype == rdatatype.AAAA) then
    { resp with answer := resp.answer ++
        [rrsetFromText dst DEFAULT_TTL rdataclass.IN a.rdtype a.address] }
  else resp

/-- The `for a in r` loop of `CNameRule.dispatch` (the `appendAddressRecords`
step of the response synthesizer). -/
def appendAddressRecords (dst : String) (response : DnsMessage) (records : List Rdata) :
    DnsMessage :=
  records.foldl (cnameStep dst) response

/-- `CNameRule.dispatch`: submit one `_resolver(message, resolver)` task per
resolver (task `i` asks resolver `i` for the A records of `dst`:
`resolver.query(self.dst, "A")`), wait for the first task to complete
and pop it.  `results i` applied to the looked-up name is the completion
the environment schedule assigns to task `i`; `winner` is the index of
the task that completes first.  On a winning exception, `NetworkError`
is raised at once; otherwise the response is the CNAME rrset
`(question[0].name, DEFAULT_TTL, IN, CNAME, dst)` followed by one
address record per IN-class A/AAAA rdata of the winning answer. -/
def CNameRule.dispatch (c : CNameRule) (message : DnsMessage) (_context : Context)
    (results : Fin c.resolvers.length → String → TaskResult (List Rdata))
    (winner : Fin c.resolvers.length) : DispatchResult :=
  match results winner c.dst with
  | .ok r =>
    match message.question with
    | [] => .error .indexError
    | q :: _ =>
      let response := makeResponse message
      let respData := rrsetFromText q.name DEFAULT_TTL rdataclass.IN rdatatype.CNAME c.dst
      let response := { response with answer := response.answer ++ [respData] }
      .ok (.responded (appendAddressRecords c.dst response r), [])
  | .exn _ => .error (.networkError message c.resolvers)

/-- `RewriteRule`: applies a rewrite to an inbound request. -/
structure RewriteRule where
  domain : String
  pattern : String
  deriving DecidableEq

/-- `RewriteRule.__init__`: store the replacement pattern text. -/
def RewriteRule.init (domain pattern : String) : RewriteRule :=
  { domain := domain, pattern := pattern }

/-- `RewriteRule.dispatch`: set `message.question[0].name` (raising on an
empty question section) to `dns.name.from_text(self.pattern)` and return
`None`.  The mutated message is returned alongside the outcome. -/
def RewriteRule.dispatch (r : RewriteRule) (message : DnsMessage) (_context : Context) :
    Except DispatchError (DnsMessage × Outcome × List LogEntry) :=
  match message.question with
  | [] => .error .indexError
  | q :: rest =>
    .ok ({ message with question := { q with name := dnsNameFromText r.pattern } :: rest },
      .noAction, [])

/-- Projection of a dispatch result onto what the caller observes: the
raised error or the outcome, with the log lines dropped. -/
def outcomeOf (r : DispatchResult) : Except DispatchError Outcome :=
  r.map Prod.fst

/-- Projection of a rewrite dispatch result onto what the caller observes:
the raised error, or the mutated message and the outcome. -/
def rewriteOutcomeOf (r : Except DispatchError (DnsMessage × Outcome × List LogEntry)) :
    Except DispatchError (DnsMessage × Outcome) :=
  r.map (fun p => (p.1, p.2.1))

/-- Decidable equality of modelled dispatch results. -/
instance {ε α : Type} [DecidableEq ε] [DecidableEq α] : DecidableEq (Except ε α) := fun x y =>
  match x, y with
  | .ok a, .ok b =>
    if h : a = b then isTrue (by rw [h]) else isFalse (fun hc => h (by cases hc; rfl))
  | .error a, .error b =>
    if h : a = b then isTrue (by rw [h]) else isFalse (fun hc => h (by cases hc; rfl))
  | .ok _, .error _ => isFalse (fun hc => Except.noConfusion hc)
  | .error _, .ok _ => isFalse (fun hc => Except.noConfusion hc)

/-! Sample inputs used by the witnesses. -/

/-- A type-A, class-IN question for `www.foo.com.`. -/
def sampleQuestion : Question :=
  { name := "www.foo.com.", rdtype := rdatatype.A, rdclass := rdataclass.IN }

/-- A query carrying `sampleQuestion`. -/
def sampleMessage : DnsMessage :=
  { id := 42, question := [sampleQuestion], answer := [] }

/-- A type-MX, class-IN question. -/
def mxQuestion : Question :=
  { name := "mail.foo.com.", rdtype := rdatatype.MX, rdclass := rdataclass.IN }

/-- A query carrying `mxQuestion`. -/
def mxMessage : DnsMessage :=
  { id := 43, question := [mxQuestion], answer := [] }

/-- A message whose question section is empty. -/
def noQuestionMessage : DnsMessage :=
  { id := 7, question := [], answer := [] }

/-- A ConditionalBlock rule with a type filter of MX and no class filter. -/
def mxBlockRule : ConditionalBlockRule :=
  { domain := "^(.*)foo.com", rdtype := some rdatatype.MX, rdclass := none }

/-! Helper lemmas. -/

/-- A configured filter does not mismatch exactly when the query value equals
every configured filter value. -/
theorem filterMismatch_eq_false_iff (f : Option Nat) (v : Nat) :
    filterMismatch f v = false ↔ ∀ t, f = some t → v = t := by
  cases f with
  | none => simp [filterMismatch]
  | some x => simp [filterMismatch]

/-! The claims. -/

/-- C3: ConditionalBlock dispatch returns an empty-answer response exactly
when the query's type equals the configured type filter (when one is
configured) and its class equals the configured class filter (when one is
configured); otherwise it returns NoAction. -/
theorem conditional_block_dispatch_iff (r : ConditionalBlockRule) (message : DnsMessage)
    (context : Context) (q : Question) (qs : List Question)
    (hq : message.question = q :: qs) :
    ((∃ logs, r.dispatch message context = .ok (.responded (makeResponse message), logs)) ↔
      ((∀ t, r.rdtype = some t → q.rdtype = t) ∧ (∀ s, r.rdclass = some s → q.rdclass = s)))
    ∧ (¬ ((∀ t, r.rdtype = some t → q.rdtype = t) ∧ (∀ s, r.rdclass = some s → q.rdclass = s)) →
      r.dispatch message context = .ok (.noAction, [])) := by
  have hiff_t := filterMismatch_eq_false_iff r.rdtype q.rdtype
  have hiff_c := filterMismatch_eq_false_iff r.rdclass q.rdclass
  cases hmt : filterMismatch r.rdtype q.rdtype with
  | false =>
    cases hmc : filterMismatch r.rdclass q.rdclass with
    | false =>
      have hdisp : r.dispatch message context = .ok (.responded (makeResponse message),
          ["conditionally blocking query: " ++ q.name ++ " matched by rule: " ++ r.domain ++
            " with context: " ++ ctxToString context]) := by
        simp [ConditionalBlockRule.dispatch, hq, hmt, hmc]
      exact ⟨⟨fun _ => ⟨hiff_t.mp hmt, hiff_c.mp hmc⟩, fun _ => ⟨_, hdisp⟩⟩,
        fun hno => absurd ⟨hiff_t.mp hmt, hiff_c.mp hmc⟩ hno⟩
    | true =>
      have hdisp : r.dispatch message context = .ok (.noAction, []) := by
        simp [ConditionalBlockRule.dispatch, hq, hmt, hmc]
      refine ⟨⟨fun hex => ?_, fun hall => ?_⟩, fun _ => hdisp⟩
      · obtain ⟨logs, hl⟩ := hex
        rw [hdisp] at hl
        simp at hl
      · exact absurd (hiff_c.mpr hall.2) (by simp [hmc])
  | true =>
    have hdisp : r.dispatch message context = .ok (.noAction, []) := by
      simp [ConditionalBlockRule.dispatch, hq, hmt]
    refine ⟨⟨fun hex => ?_, fun hall => ?_⟩, fun _ => hdisp⟩
    · obtain ⟨logs, hl⟩ := hex
      rw [hdisp] at hl
      simp at hl
    · exact absurd (hiff_t.mpr hall.1) (by simp [hmt])

/-- C3 witness: a ConditionalBlock rule with a type filter of MX and no class
filter returns NoAction for a type-A query and an empty-answer response for a
type-MX query. -/
theorem conditional_block_dispatch_iff_witness :
    ConditionalBlockRule.dispatch mxBlockRule sampleMessage [] = .ok (.noAction, [])
    ∧ (∃ logs, ConditionalBlockRule.dispatch mxBlockRule mxMessage [] =
        .ok (.responded (makeResponse mxMessage), logs)) := by
  constructor
  · exact (conditional_block_dispatch_iff mxBlockRule sampleMessage [] sampleQuestion [] rfl).2
      (fun h => absurd (h.1 rdatatype.MX rfl) (by decide))
  · exact (conditional_block_dispatch_iff mxBlockRule mxMessage [] mxQuestion [] rfl).1.mpr
      ⟨fun t h => by cases h; rfl, fun s h => by cases h⟩

/-- C4: Redirect dispatch returns Responded with exactly one CNAME record:
owner = the query's question name, target = the configured destination in
trailing-dot form (the dot appended at construction when lacking), TTL 300. -/
theorem redirect_dispatch_single_cname (domain destination : String) (message : DnsMessage)
    (context : Context) (q : Question) (qs : List Question)
    (hq : message.question = q :: qs) :
    (RedirectRule.init domain destination).dispatch message context =
      .ok (.responded
        { id := message.id
          question := message.question
          answer := [{ name := q.name, ttl := 300, rdclass := rdataclass.IN,
                       rdtype := rdatatype.CNAME,
                       rdata := if endsWithDot destination then destination
                                else destination ++ "." }] }, []) := by
  simp [RedirectRule.dispatch, RedirectRule.init, hq, makeResponse, rrsetFromText,
    normalizeDst, DEFAULT_TTL]

/-- C4 witness: redirecting `www.foo.com.` to the dotless destination
`foo.com` answers with the single CNAME `www.foo.com. → foo.com.`. -/
theorem redirect_dispatch_single_cname_witness :
    (RedirectRule.init "^(.*)www.foo.com" "foo.com").dispatch sampleMessage [] =
      .ok (.responded
        { id := 42
          question := [sampleQuestion]
          answer := [{ name := "www.foo.com.", ttl := 300, rdclass := rdataclass.IN,
                       rdtype := rdatatype.CNAME, rdata := "foo.com." }] }, []) := by
  have h := redirect_dispatch_single_cname "^(.*)www.foo.com" "foo.com" sampleMessage []
    sampleQuestion [] rfl
  exact h.trans (by decide)

/-- C5: a Block response — and a ConditionalBlock response when the filters
match — has zero answer records, the input query's question section, and the
input query's transaction id. -/
theorem block_responses_empty_answer (b : BlockRule) (r : ConditionalBlockRule)
    (message : DnsMessage) (context : Context) (q : Question) (qs : List Question)
    (hq : message.question = q :: qs)
    (ht : ∀ t, r.rdtype = some t → q.rdtype = t)
    (hs : ∀ s, r.rdclass = some s → q.rdclass = s) :
    (∃ logs, b.dispatch message context =
      .ok (.responded { id := message.id, question := message.question, answer := [] }, logs))
    ∧ (∃ logs, r.dispatch message context =
      .ok (.responded { id := message.id, question := message.question, answer := [] }, logs)) := by
  have h1 : filterMismatch r.rdtype q.rdtype = false :=
    (filterMismatch_eq_false_iff r.rdtype q.rdtype).mpr ht
  have h2 : filterMismatch r.rdclass q.rdclass = false :=
    (filterMismatch_eq_false_iff r.rdclass q.rdclass).mpr hs
  have hb : b.dispatch message context =
      .ok (.responded { id := message.id, question := message.question, answer := [] },
        ["blocking query: " ++ q.name ++ " matched by rule: " ++ b.domain ++
          " with context: " ++ ctxToString context]) := by
    simp [BlockRule.dispatch, hq, makeResponse]
  have hr : r.dispatch message context =
      .ok (.responded { id := message.id, question := message.question, answer := [] },
        ["conditionally blocking query: " ++ q.name ++ " matched by rule: " ++ r.domain ++
          " with context: " ++ ctxToString context]) := by
    simp [ConditionalBlockRule.dispatch, hq, h1, h2, makeResponse]
  exact ⟨⟨_, hb⟩, ⟨_, hr⟩⟩

/-- C5 witness: a Block rule and a matching ConditionalBlock rule both answer
the MX query with a response carrying id 43, the original question section,
and no answer records. -/
theorem block_responses_empty_answer_witness :
    (∃ logs, BlockRule.dispatch { domain := "^(.*)bad.example" } mxMessage [] =
      .ok (.responded { id := 43, question := [mxQuestion], answer := [] }, logs))
    ∧ (∃ logs, ConditionalBlockRule.dispatch mxBlockRule mxMessage [] =
      .ok (.responded { id := 43, question := [mxQuestion], answer := [] }, logs)) :=
  block_responses_empty_answer { domain := "^(.*)bad.example" } mxBlockRule mxMessage []
    mxQuestion [] rfl (fun t h => by cases h; rfl) (fun s h => by cases h)

/-- C8: for a query with a non-empty question section, Block, ConditionalBlock
and Rewrite dispatch never raise, and Logging always returns NoAction. -/
theorem non_network_rules_cannot_fail (b : BlockRule) (cb : ConditionalBlockRule)
    (lg : LoggingRule) (rwr : RewriteRule) (message : DnsMessage) (context : Context)
    (q : Question) (qs : List Question) (hq : message.question = q :: qs) :
    (∃ out, b.dispatch message context = .ok out)
    ∧ (∃ out, cb.dispatch message context = .ok out)
    ∧ (∃ out, rwr.dispatch message context = .ok out)
    ∧ (∃ logs, lg.dispatch message context = .ok (.noAction, logs)) := by
  have hblock : b.dispatch message context = .ok (.responded (makeResponse message),
      ["blocking query: " ++ q.name ++ " matched by rule: " ++ b.domain ++
        " with context: " ++ ctxToString context]) := by
    simp [BlockRule.dispatch, hq]
  have hrewrite : rwr.dispatch message context =
      .ok ({ message with question := { q with name := dnsNameFromText rwr.pattern } :: qs },
        .noAction, []) := by
    simp [RewriteRule.dispatch, hq]
  have hlog : lg.dispatch message context = .ok (.noAction,
      ["logging query: " ++ q.name ++ " matched by rule: " ++ lg.domain ++
        " with context: " ++ ctxToString context]) := by
    simp [LoggingRule.dispatch, hq]
  refine ⟨⟨_, hblock⟩, ?_, ⟨_, hrewrite⟩, ⟨_, hlog⟩⟩
  cases hmt : filterMismatch cb.rdtype q.rdtype with
  | true =>
    have h : cb.dispatch message context = .ok (.noAction, []) := by
      simp [ConditionalBlockRule.dispatch, hq, hmt]
    exact ⟨_, h⟩
  | false =>
    cases hmc : filterMismatch cb.rdclass q.rdclass with
    | true =>
      have h : cb.dispatch message context = .ok (.noAction, []) := by
        simp [ConditionalBlockRule.dispatch, hq, hmt, hmc]
      exact ⟨_, h⟩
    | false =>
      have h : cb.dispatch message context = .ok (.responded (makeResponse message),
          ["conditionally blocking query: " ++ q.name ++ " matched by rule: " ++ cb.domain ++
            " with context: " ++ ctxToString context]) := by
        simp [ConditionalBlockRule.dispatch, hq, hmt, hmc]
      exact ⟨_, h⟩

/-- C8 witness: on the sample type-A query, Block, ConditionalBlock and
Rewrite dispatch return without raising, and Logging returns NoAction. -/
theorem non_network_rules_cannot_fail_witness :
    (∃ out, BlockRule.dispatch { domain := "^(.*)bad.example" } sampleMessage [] = .ok out)
    ∧ (∃ out, ConditionalBlockRule.dispatch mxBlockRule sampleMessage [] = .ok out)
    ∧ (∃ out, RewriteRule.dispatch (RewriteRule.init "^www.foo.com" "foo.com")
        sampleMessage [] = .ok out)
    ∧ (∃ logs, LoggingRule.dispatch { domain := "^(.*)foo.com" } sampleMessage [] =
        .ok (.noAction, logs)) :=
  non_network_rules_cannot_fail { domain := "^(.*)bad.example" } mxBlockRule
    { domain := "^(.*)foo.com" } (RewriteRule.init "^www.foo.com" "foo.com")
    sampleMessage [] sampleQuestion [] rfl

/-- C9: on a query whose question section is empty, Redirect, Block,
ConditionalBlock, Logging and Rewrite dispatch all raise IndexError instead
of returning an outcome: a non-empty question section is a precondition. -/
theorem empty_question_raises_index_error (rd : RedirectRule) (b : BlockRule)
    (cb : ConditionalBlockRule) (lg : LoggingRule) (rwr : RewriteRule)
    (message : DnsMessage) (context : Context) (hq : message.question = []) :
    rd.dispatch message context = .error .indexError
    ∧ b.dispatch message context = .error .indexError
    ∧ cb.dispatch message context = .error .indexError
    ∧ lg.dispatch message context = .error .indexError
    ∧ rwr.dispatch message context = .error .indexError := by
  refine ⟨?_, ?_, ?_, ?_, ?_⟩ <;>
    simp [RedirectRule.dispatch, BlockRule.dispatch, ConditionalBlockRule.dispatch,
      LoggingRule.dispatch, RewriteRule.dispatch, hq]

/-- C9 witness: all five dispatches raise IndexError on the concrete message
with an empty question section. -/
theorem empty_question_raises_index_error_witness :
    (RedirectRule.init "^(.*)www.foo.com" "foo.com").dispatch noQuestionMessage []
      = .error .indexError
    ∧ BlockRule.dispatch { domain := "^(.*)bad.example" } noQuestionMessage []
      = .error .indexError
    ∧ ConditionalBlockRule.dispatch mxBlockRule noQuestionMessage [] = .error .indexError
    ∧ LoggingRule.dispatch { domain := "^(.*)foo.com" } noQuestionMessage []
      = .error .indexError
    ∧ RewriteRule.dispatch (RewriteRule.init "^www.foo.com" "foo.com") noQuestionMessage []
      = .error .indexError :=
  empty_question_raises_index_error (RedirectRule.init "^(.*)www.foo.com" "foo.com")
    { domain := "^(.*)bad.example" } mxBlockRule { domain := "^(.*)foo.com" }
    (RewriteRule.init "^www.foo.com" "foo.com") noQuestionMessage [] rfl

/-- C6: Rewrite dispatch returns NoAction, writes the configured replacement
(converted to a DNS name) into the first question entry's name, and leaves
the transaction id, the answer section, the remaining question entries, and
the first entry's record type and class unchanged. -/
theorem rewrite_dispatch_noaction_mutation (r : RewriteRule) (message : DnsMessage)
    (context : Context) (q : Question) (qs : List Question)
    (hq : message.question = q :: qs) :
    r.dispatch message context =
      .ok ({ id := message.id
             question := { name := dnsNameFromText r.pattern, rdtype := q.rdtype,
                           rdclass := q.rdclass } :: qs
             answer := message.answer }, .noAction, []) := by
  simp [RewriteRule.dispatch, hq]

/-- C6 witness: rewriting the sample type-A query to `foo.com` returns
NoAction with only the first question name changed (to `foo.com.`). -/
theorem rewrite_dispatch_noaction_mutation_witness :
    (RewriteRule.init "^www.foo.com" "foo.com").dispatch sampleMessage [] =
      .ok ({ id := 42
             question := [{ name := "foo.com.", rdtype := rdatatype.A,
                            rdclass := rdataclass.IN }]
             answer := [] }, .noAction, []) := by
  have h := rewrite_dispatch_noaction_mutation (RewriteRule.init "^www.foo.com" "foo.com")
    sampleMessage [] sampleQuestion [] rfl
  exact h.trans (by decide)

/-- C10: the question name written by Rewrite dispatch is the configured
pattern converted to a DNS name, independent of the query: any two queries
successfully rewritten by the same rule end up with identical question
names. -/
theorem rewrite_name_independent_of_query (r : RewriteRule) (m1 m2 : DnsMessage)
    (c1 c2 : Context) (q1 : Question) (l1 : List Question) (q2 : Question)
    (l2 : List Question) (h1 : m1.question = q1 :: l1) (h2 : m2.question = q2 :: l2)
    (n1 n2 : DnsMessage) (o1 o2 : Outcome) (g1 g2 : List LogEntry)
    (d1 : r.dispatch m1 c1 = .ok (n1, o1, g1)) (d2 : r.dispatch m2 c2 = .ok (n2, o2, g2)) :
    n1.question.head?.map Question.name = some (dnsNameFromText r.pattern)
    ∧ n1.question.head?.map Question.name = n2.question.head?.map Question.name := by
  simp [RewriteRule.dispatch, h1] at d1
  simp [RewriteRule.dispatch, h2] at d2
  obtain ⟨hn1, -, -⟩ := d1
  obtain ⟨hn2, -, -⟩ := d2
  simp [← hn1, ← hn2]

/-- C10 witness: the same Rewrite rule applied to the type-A query for
`www.foo.com.` and to the type-MX query for `mail.foo.com.` writes the same
question name `foo.com.` into both. -/
theorem rewrite_name_independent_of_query_witness :
    (let r := RewriteRule.init "^(.*)foo.com" "foo.com"
     ∃ n1 n2 : DnsMessage, ∃ o1 o2 : Outcome, ∃ g1 g2 : List LogEntry,
       r.dispatch sampleMessage [] = .ok (n1, o1, g1)
       ∧ r.dispatch mxMessage [("client", "10.1.1.1")] = .ok (n2, o2, g2)
       ∧ n1.question.head?.map Question.name = some "foo.com."
       ∧ n1.question.head?.map Question.name = n2.question.head?.map Question.name) := by
  refine ⟨_, _, _, _, _, _, rfl, rfl, ?_, ?_⟩
  · have h := rewrite_name_independent_of_query (RewriteRule.init "^(.*)foo.com" "foo.com")
      sampleMessage mxMessage [] [("client", "10.1.1.1")] sampleQuestion [] mxQuestion []
      rfl rfl _ _ _ _ _ _ rfl rfl
    exact h.1.trans (by decide)
  · exact (rewrite_name_independent_of_query (RewriteRule.init "^(.*)foo.com" "foo.com")
      sampleMessage mxMessage [] [("client", "10.1.1.1")] sampleQuestion [] mxQuestion []
      rfl rfl _ _ _ _ _ _ rfl rfl).2

/-- C7: the context mapping passed in extras never affects the outcome: for
every rule variant, two dispatch calls that differ only in the context give
the same observed result (identical response, identical NoAction — for
Rewrite including the mutated query — or the same raised error); the context
flows only into log lines. -/
theorem context_only_affects_logs (rd : RedirectRule) (b : BlockRule)
    (cb : ConditionalBlockRule) (lg : LoggingRule) (rs : ResolveRule) (cn : CNameRule)
    (rwr : RewriteRule) (message : DnsMessage) (c1 c2 : Context)
    (rres : Fin rs.resolvers.length → DnsMessage → TaskResult DnsMessage)
    (rwin : Fin rs.resolvers.length)
    (cres : Fin cn.resolvers.length → String → TaskResult (List Rdata))
    (cwin : Fin cn.resolvers.length) :
    outcomeOf (rd.dispatch message c1) = outcomeOf (rd.dispatch message c2)
    ∧ outcomeOf (b.dispatch message c1) = outcomeOf (b.dispatch message c2)
    ∧ outcomeOf (cb.dispatch message c1) = outcomeOf (cb.dispatch message c2)
    ∧ outcomeOf (lg.dispatch message c1) = outcomeOf (lg.dispatch message c2)
    ∧ outcomeOf (rs.dispatch message c1 rres rwin) = outcomeOf (rs.dispatch message c2 rres rwin)
    ∧ outcomeOf (cn.dispatch message c1 cres cwin) = outcomeOf (cn.dispatch message c2 cres cwin)
    ∧ rewriteOutcomeOf (rwr.dispatch message c1) = rewriteOutcomeOf (rwr.dispatch message c2) := by
  refine ⟨rfl, ?_, ?_, ?_, rfl, rfl, rfl⟩
  · cases hq : message.question <;> simp [BlockRule.dispatch, hq, outcomeOf, Except.map]
  · cases hq : message.question with
    | nil => simp [ConditionalBlockRule.dispatch, hq]
    | cons q qs =>
      simp only [ConditionalBlockRule.dispatch, hq]
      split
      · rfl
      · split <;> rfl
  · cases hq : message.question <;> simp [LoggingRule.dispatch, hq, outcomeOf, Except.map]

/-- A Resolve rule racing two upstream resolvers. -/
def raceRule : ResolveRule :=
  { domain := "^(.*)example", resolvers := ["10.0.0.1", "10.0.0.2"], timeout := 1 }

/-- The upstream response the slow resolver would have delivered. -/
def upstreamWire : DnsMessage :=
  { id := 42, question := [sampleQuestion],
    answer := [{ name := "www.foo.com.", ttl := 60, rdclass := rdataclass.IN,
                 rdtype := rdatatype.A, rdata := "93.184.216.34" }] }

/-- A schedule where task 0 (slow) would succeed and task 1 (fast) fails. -/
def raceResults : Fin raceRule.resolvers.length → DnsMessage → TaskResult DnsMessage :=
  fun i _ => if i.val = 0 then .ok upstreamWire else .exn "timed out"

/-- A CName rule with a single upstream resolver. -/
def cnameSample : CNameRule :=
  { domain := "^(.*)foo.com", dst := "bar.com.", resolvers := ["10.0.0.3"], timeout := 1 }

/-- A schedule whose only CName lookup task fails. -/
def cnameFailResults : Fin cnameSample.resolvers.length → String → TaskResult (List Rdata) :=
  fun _ _ => .exn "refused"

/-- C1: Resolve and CName dispatch are decided solely by the first-completed
task: two schedules agreeing on the winning task give the same result; a
winning error raises NetworkError at once, whatever the other tasks would
have done; a winning Resolve success is returned verbatim as the response. -/
theorem race_decided_by_first_completed (r : ResolveRule) (c : CNameRule)
    (message : DnsMessage) (context : Context)
    (rres rres' : Fin r.resolvers.length → DnsMessage → TaskResult DnsMessage)
    (rwin : Fin r.resolvers.length)
    (cres cres' : Fin c.resolvers.length → String → TaskResult (List Rdata))
    (cwin : Fin c.resolvers.length) :
    (rres rwin message = rres' rwin message →
      r.dispatch message context rres rwin = r.dispatch message context rres' rwin)
    ∧ (∀ e, rres rwin message = .exn e →
      r.dispatch message context rres rwin = .error (.networkError message r.resolvers))
    ∧ (∀ w, rres rwin message = .ok w →
      r.dispatch message context rres rwin = .ok (.responded w, []))
    ∧ (cres cwin c.dst = cres' cwin c.dst →
      c.dispatch message context cres cwin = c.dispatch message context cres' cwin)
    ∧ (∀ e, cres cwin c.dst = .exn e →
      c.dispatch message context cres cwin = .error (.networkError message c.resolvers)) := by
  refine ⟨fun h => ?_, fun e he => ?_, fun w hw => ?_, fun h => ?_, fun e he => ?_⟩
  · simp only [ResolveRule.dispatch, h]
  · simp only [ResolveRule.dispatch, he]
  · simp only [ResolveRule.dispatch, hw]
  · simp only [CNameRule.dispatch, h]
  · simp only [CNameRule.dispatch, he]

/-- C1 witness: with resolvers [slow-success, fast-fail] and the failing task
completing first, Resolve dispatch raises NetworkError although the slow task
would have delivered `upstreamWire`; a winning Resolve success is returned
verbatim; and a CName race whose first-completed task fails raises
NetworkError likewise. -/
theorem race_decided_by_first_completed_witness :
    raceResults ⟨0, by decide⟩ sampleMessage = .ok upstreamWire
    ∧ ResolveRule.dispatch raceRule sampleMessage [] raceResults ⟨1, by decide⟩ =
      .error (.networkError sampleMessage ["10.0.0.1", "10.0.0.2"])
    ∧ ResolveRule.dispatch raceRule sampleMessage [] raceResults ⟨0, by decide⟩ =
      .ok (.responded upstreamWire, [])
    ∧ CNameRule.dispatch cnameSample sampleMessage [] cnameFailResults ⟨0, by decide⟩ =
      .error (.networkError sampleMessage ["10.0.0.3"]) := by
  refine ⟨rfl, ?_, ?_, ?_⟩
  · exact (race_decided_by_first_completed raceRule cnameSample sampleMessage [] raceResults
      raceResults ⟨1, by decide⟩ cnameFailResults cnameFailResults ⟨0, by decide⟩).2.1
      "timed out" rfl
  · exact (race_decided_by_first_completed raceRule cnameSample sampleMessage [] raceResults
      raceResults ⟨0, by decide⟩ cnameFailResults cnameFailResults ⟨0, by decide⟩).2.2.1
      upstreamWire rfl
  · exact (race_decided_by_first_completed raceRule cnameSample sampleMessage [] raceResults
      raceResults ⟨0, by decide⟩ cnameFailResults cnameFailResults ⟨0, by decide⟩).2.2.2.2
      "refused" rfl

/-- Characterization of the `CNameRule.dispatch` loop: running it from
`response` appends exactly one TTL-300 address record per IN-class A/AAAA
rdata, and nothing for any other rdata. -/
theorem appendAddressRecords_eq (dst : String) (response : DnsMessage)
    (records : List Rdata) :
    appendAddressRecords dst response records =
      { response with answer := response.answer ++ records.filterMap (fun a =>
          if a.rdclass = rdataclass.IN ∧ (a.rdtype = rdatatype.A ∨ a.rdtype = rdatatype.AAAA)
          then some { name := dst, ttl := 300, rdclass := rdataclass.IN, rdtype := a.rdtype,
                      rdata := a.address }
          else none) } := by
  induction records generalizing response with
  | nil => simp [appendAddressRecords]
  | cons a l ih =>
    simp only [appendAddressRecords, List.foldl_cons, List.filterMap_cons] at *
    by_cases h : a.rdclass = rdataclass.IN ∧ (a.rdtype = rdatatype.A ∨ a.rdtype = rdatatype.AAAA)
    · have hb : (a.rdclass == rdataclass.IN &&
          (a.rdtype == rdatatype.A || a.rdtype == rdatatype.AAAA)) = true := by
        obtain ⟨h1, h2⟩ := h
        rcases h2 with h2 | h2 <;> simp [h1, h2]
      rw [ih]
      simp [cnameStep, hb, h, rrsetFromText, DEFAULT_TTL]
    · have hb : (a.rdclass == rdataclass.IN &&
          (a.rdtype == rdatatype.A || a.rdtype == rdatatype.AAAA)) = false := by
        simpa using h
      rw [ih]
      simp [cnameStep, hb, h]

/-- C2: with a CName rule built by `__init__`, a dispatch whose winning task
returns the upstream answer `rd` responds with an answer section that is
exactly one CNAME (owner = query name, target = the fully-qualified
destination, TTL 300) followed by one TTL-300 address record per IN-class
A/AAAA rdata of `rd`, owned by the destination, the address copied verbatim;
every other rdata contributes no record.  The destination is fully qualified
(it ends with a dot). -/
theorem cname_dispatch_success (settings : Settings) (domain destination resolvers : String)
    (message : DnsMessage) (context : Context) (q : Question) (qs : List Question)
    (hq : message.question = q :: qs)
    (results : Fin (CNameRule.init settings domain destination resolvers).resolvers.length →
      String → TaskResult (List Rdata))
    (winner : Fin (CNameRule.init settings domain destination resolvers).resolvers.length)
    (rd : List Rdata)
    (hw : results winner (CNameRule.init settings domain destination resolvers).dst = .ok rd) :
    (CNameRule.init settings domain destination resolvers).dispatch message context
        results winner =
      .ok (.responded
        { id := message.id
          question := message.question
          answer := { name := q.name, ttl := 300, rdclass := rdataclass.IN,
                      rdtype := rdatatype.CNAME, rdata := normalizeDst destination } ::
            rd.filterMap (fun a =>
              if a.rdclass = rdataclass.IN ∧ (a.rdtype = rdatatype.A ∨ a.rdtype = rdatatype.AAAA)
              then some { name := normalizeDst destination, ttl := 300,
                          rdclass := rdataclass.IN, rdtype := a.rdtype, rdata := a.address }
              else none) }, [])
    ∧ endsWithDot (CNameRule.init settings domain destination resolvers).dst = true := by
  constructor
  · simp only [CNameRule.dispatch, hw, hq]
    rw [appendAddressRecords_eq]
    simp [makeResponse, rrsetFromText, CNameRule.init, DEFAULT_TTL, hq]
  · show endsWithDot (normalizeDst destination) = true
    unfold normalizeDst
    split
    · assumption
    · simp [endsWithDot, String.data_append, List.getLast?_append_cons]

/-- A winning upstream answer mixing IN-class A and AAAA rdatas with a
CH-class rdata and an IN-class TXT rdata (the latter two must be dropped). -/
def cnameUpstream : List Rdata :=
  [ { rdclass := rdataclass.IN, rdtype := rdatatype.A, address := "93.184.216.34" },
    { rdclass := rdataclass.CH, rdtype := rdatatype.A, address := "10.9.9.9" },
    { rdclass := rdataclass.IN, rdtype := rdatatype.TXT, address := "hello" },
    { rdclass := rdataclass.IN, rdtype := rdatatype.AAAA, address := "2606:2800:220:1::1946" } ]

/-- C2 witness: a CName rule built from the dotless destination `bar.com`
responds with the CNAME `www.foo.com. → bar.com.` followed by exactly the two
IN-class A/AAAA records of the winning answer, re-owned by `bar.com.` with
TTL 300; the CH-class and TXT rdatas contribute nothing. -/
theorem cname_dispatch_success_witness :
    (CNameRule.init {} "^(.*)foo.com" "bar.com" "10.0.0.4, 10.0.0.5").dispatch
        sampleMessage [] (fun _ _ => .ok cnameUpstream) ⟨0, by decide⟩ =
      .ok (.responded
        { id := 42
          question := [sampleQuestion]
          answer := [ { name := "www.foo.com.", ttl := 300, rdclass := rdataclass.IN,
                        rdtype := rdatatype.CNAME, rdata := "bar.com." },
                      { name := "bar.com.", ttl := 300, rdclass := rdataclass.IN,
                        rdtype := rdatatype.A, rdata := "93.184.216.34" },
                      { name := "bar.com.", ttl := 300, rdclass := rdataclass.IN,
                        rdtype := rdatatype.AAAA, rdata := "2606:2800:220:1::1946" } ] }, [])
    ∧ endsWithDot (CNameRule.init {} "^(.*)foo.com" "bar.com" "10.0.0.4, 10.0.0.5").dst
      = true := by
  have h := cname_dispatch_success {} "^(.*)foo.com" "bar.com" "10.0.0.4, 10.0.0.5"
    sampleMessage [] sampleQuestion [] rfl (fun _ _ => .ok cnameUpstream) ⟨0, by decide⟩
    cnameUpstream rfl
  exact ⟨h.1.trans (by decide), h.2⟩

end Sentry
